import Mathlib

/-!
Shallow embedding of the rgltf library (a raylib extension that loads and
draws glTF 2.0 models), covering the data model of rgltf.h and the
implementation of model loading (LoadGLTFModelFile / LoadGLTFModel) and
drawing (DrawGLTFNode / DrawGLTFScene / DrawGLTFModelEx).

Modelling conventions:
- C `float` / `double` arithmetic is modelled exactly over `ℚ`; C casts to
  `unsigned char` of nonnegative in-range values are floor-truncation.
- The external cgltf parser is an excluded collaborator: the loader is
  modelled as a function of the parsed container (`CData`), with `none`
  standing for a file/parse failure.
- External raylib/raymath collaborators used by the code (MatrixMultiply,
  MatrixTranslate, MatrixScale, QuaternionToMatrix, LoadMaterialDefault,
  GenMeshCube) are embedded from their published raymath/raylib
  definitions, which the spec assumes correct.
- GPU objects (textures, vertex buffers) and image decoding are external
  and not modelled; mesh vertex payloads other than the fields the claims
  concern (vertexCount, triangleCount, indices) are not tracked.
- TraceLog warnings are modelled as an explicit `Warning` list; DrawMesh
  calls are modelled as an explicit `DrawCall` trace, and the mutation of
  the shared `model.materials` array during drawing is modelled by
  threading the materials list through the draw functions as state.
-/

namespace RGltf

/-- Color with four 8-bit channels (raylib `Color`), channels as `Nat`. -/
structure Color where
  r : Nat
  g : Nat
  b : Nat
  a : Nat
deriving DecidableEq

/-- Color literal `WHITE` of raylib. -/
def white : Color := ⟨255, 255, 255, 255⟩

/-- C cast of a nonnegative real (modelled as `ℚ`) to `unsigned char`:
truncation toward zero, which on the nonnegative in-range values the
source casts equals the floor. -/
def toUChar (x : ℚ) : Nat := ⌊x⌋.toNat

/-- Three-component vector of raymath, over `ℚ`. -/
structure Vector3 where
  x : ℚ
  y : ℚ
  z : ℚ
deriving DecidableEq

/-- Quaternion of raymath, over `ℚ`. -/
structure Quaternion where
  x : ℚ
  y : ℚ
  z : ℚ
  w : ℚ
deriving DecidableEq

/-- Identity quaternion (raymath `QuaternionIdentity`): (0, 0, 0, 1). -/
def QuaternionIdentity : Quaternion := ⟨0, 0, 0, 1⟩

/-- Four-by-four matrix of raymath, over `ℚ`, with raymath's field names
(m0..m15; column-major: m12/m13/m14 hold the translation). -/
structure Matrix where
  m0 : ℚ
  m1 : ℚ
  m2 : ℚ
  m3 : ℚ
  m4 : ℚ
  m5 : ℚ
  m6 : ℚ
  m7 : ℚ
  m8 : ℚ
  m9 : ℚ
  m10 : ℚ
  m11 : ℚ
  m12 : ℚ
  m13 : ℚ
  m14 : ℚ
  m15 : ℚ
deriving DecidableEq

/-- All-zero matrix: the value of a `Matrix` field of a `{ 0 }`-initialized
C structure. -/
def MatrixZero : Matrix :=
  { m0 := 0, m1 := 0, m2 := 0, m3 := 0, m4 := 0, m5 := 0, m6 := 0, m7 := 0
    m8 := 0, m9 := 0, m10 := 0, m11 := 0, m12 := 0, m13 := 0, m14 := 0, m15 := 0 }

/-- Identity matrix (raymath `MatrixIdentity`). -/
def MatrixIdentity : Matrix :=
  { m0 := 1, m1 := 0, m2 := 0, m3 := 0, m4 := 0, m5 := 1, m6 := 0, m7 := 0
    m8 := 0, m9 := 0, m10 := 1, m11 := 0, m12 := 0, m13 := 0, m14 := 0, m15 := 1 }

/-- Matrix product (raymath `MatrixMultiply`), transcribed entrywise. -/
def MatrixMultiply (left right : Matrix) : Matrix :=
  { m0 := left.m0*right.m0 + left.m1*right.m4 + left.m2*right.m8 + left.m3*right.m12
    m1 := left.m0*right.m1 + left.m1*right.m5 + left.m2*right.m9 + left.m3*right.m13
    m2 := left.m0*right.m2 + left.m1*right.m6 + left.m2*right.m10 + left.m3*right.m14
    m3 := left.m0*right.m3 + left.m1*right.m7 + left.m2*right.m11 + left.m3*right.m15
    m4 := left.m4*right.m0 + left.m5*right.m4 + left.m6*right.m8 + left.m7*right.m12
    m5 := left.m4*right.m1 + left.m5*right.m5 + left.m6*right.m9 + left.m7*right.m13
    m6 := left.m4*right.m2 + left.m5*right.m6 + left.m6*right.m10 + left.m7*right.m14
    m7 := left.m4*right.m3 + left.m5*right.m7 + left.m6*right.m11 + left.m7*right.m15
    m8 := left.m8*right.m0 + left.m9*right.m4 + left.m10*right.m8 + left.m11*right.m12
    m9 := left.m8*right.m1 + left.m9*right.m5 + left.m10*right.m9 + left.m11*right.m13
    m10 := left.m8*right.m2 + left.m9*right.m6 + left.m10*right.m10 + left.m11*right.m14
    m11 := left.m8*right.m3 + left.m9*right.m7 + left.m10*right.m11 + left.m11*right.m15
    m12 := left.m12*right.m0 + left.m13*right.m4 + left.m14*right.m8 + left.m15*right.m12
    m13 := left.m12*right.m1 + left.m13*right.m5 + left.m14*right.m9 + left.m15*right.m13
    m14 := left.m12*right.m2 + left.m13*right.m6 + left.m14*right.m10 + left.m15*right.m14
    m15 := left.m12*right.m3 + left.m13*right.m7 + left.m14*right.m11 + left.m15*right.m15 }

/-- Translation matrix (raymath `MatrixTranslate`). -/
def MatrixTranslate (x y z : ℚ) : Matrix :=
  { m0 := 1, m1 := 0, m2 := 0, m3 := 0, m4 := 0, m5 := 1, m6 := 0, m7 := 0
    m8 := 0, m9 := 0, m10 := 1, m11 := 0, m12 := x, m13 := y, m14 := z, m15 := 1 }

/-- Scale matrix (raymath `MatrixScale`). -/
def MatrixScale (x y z : ℚ) : Matrix :=
  { m0 := x, m1 := 0, m2 := 0, m3 := 0, m4 := 0, m5 := y, m6 := 0, m7 := 0
    m8 := 0, m9 := 0, m10 := z, m11 := 0, m12 := 0, m13 := 0, m14 := 0, m15 := 1 }

/-- Rotation matrix of a quaternion (raymath `QuaternionToMatrix`);
note the formula does not normalize its input. -/
def QuaternionToMatrix (q : Quaternion) : Matrix :=
  let a2 := q.x*q.x
  let b2 := q.y*q.y
  let c2 := q.z*q.z
  let ac := q.x*q.z
  let ab := q.x*q.y
  let bc := q.y*q.z
  let ad := q.w*q.x
  let bd := q.w*q.y
  let cd := q.w*q.z
  { m0 := 1 - 2*(b2 + c2), m1 := 2*(ab + cd), m2 := 2*(ac - bd), m3 := 0
    m4 := 2*(ab - cd), m5 := 1 - 2*(a2 + c2), m6 := 2*(bc + ad), m7 := 0
    m8 := 2*(ac + bd), m9 := 2*(bc - ad), m10 := 1 - 2*(a2 + b2), m11 := 0
    m12 := 0, m13 := 0, m14 := 0, m15 := 1 }

/-- One texture-map slot of a raylib `Material` (`MaterialMap`): the claims
concern its color and scalar value; the GPU texture handle is external and
not tracked. -/
structure MaterialMap where
  color : Color
  value : ℚ
deriving DecidableEq

/-- Renderer material: the map slots the source writes that the claims
concern. `albedo` is raylib's `MATERIAL_MAP_ALBEDO`, which is the same
slot as `MATERIAL_MAP_DIFFUSE` used during drawing. -/
structure Material where
  albedo : MaterialMap
  roughness : MaterialMap
  metalness : MaterialMap
  emission : MaterialMap
deriving DecidableEq

/-- Default material (raylib `LoadMaterialDefault`, an external
collaborator): diffuse/albedo color WHITE, all other tracked fields
zero-initialized. -/
def LoadMaterialDefault : Material :=
  { albedo := { color := white, value := 0 }
    roughness := { color := ⟨0, 0, 0, 0⟩, value := 0 }
    metalness := { color := ⟨0, 0, 0, 0⟩, value := 0 }
    emission := { color := ⟨0, 0, 0, 0⟩, value := 0 } }

/-- All-zero material, the out-of-bounds read default used by total list
lookups in the embedding. -/
def Material.zero : Material :=
  { albedo := { color := ⟨0, 0, 0, 0⟩, value := 0 }
    roughness := { color := ⟨0, 0, 0, 0⟩, value := 0 }
    metalness := { color := ⟨0, 0, 0, 0⟩, value := 0 }
    emission := { color := ⟨0, 0, 0, 0⟩, value := 0 } }

/-- Renderer mesh: the fields of raylib `Mesh` that the loader writes and
the claims concern. Vertex attribute payloads (positions, normals,
tangents, texcoords, colors) are GPU-bound arrays not tracked here;
`indices` holds the decoded index values as naturals. -/
structure Mesh where
  vertexCount : Nat
  triangleCount : Nat
  indices : Option (List Nat)
deriving DecidableEq

/-- Zero-initialized mesh, as produced by `RL_CALLOC`. -/
def Mesh.zero : Mesh := { vertexCount := 0, triangleCount := 0, indices := none }

/-- Placeholder cube of raylib `GenMeshCube(1.0f, 1.0f, 1.0f)` (external
collaborator): 24 vertices and 12 triangles; the geometry payload is
abstracted like every other vertex payload. -/
def GenMeshCube : Mesh := { vertexCount := 24, triangleCount := 12, indices := none }

/-- Warnings the embedding tracks, each standing for one TRACELOG warning
site of the source that the claims concern. -/
inductive Warning where
  | parseFailed
  | lossyIndexConversion
  | indicesFormatNotSupported
  | meshLoadFailedDefaultCube
  | meshLoadFailed
  | materialLoadFailed
deriving DecidableEq

/-- Component type of a cgltf accessor (`cgltf_component_type`), restricted
to the cases the index-loading code distinguishes. -/
inductive CComponentType where
  | r8u
  | r16u
  | r32u
  | r32f
  | other
deriving DecidableEq

/-- Index accessor of a primitive: component type plus the source index
values (one value per accessor element). -/
structure CIndexAccessor where
  componentType : CComponentType
  values : List Nat
deriving DecidableEq

/-- Primitive topology (`cgltf_primitive_type`), collapsed to the only
distinction the code makes: triangles versus everything else. -/
inductive CPrimitiveType where
  | triangles
  | other
deriving DecidableEq

/-- Source primitive (`cgltf_primitive`): topology, optional index
accessor, material pointer (as the index of the source material it points
at, `none` for NULL), and the POSITION attribute when present in the one
supported format (vec3/float), represented by its element count. -/
structure CPrimitive where
  type : CPrimitiveType
  indices : Option CIndexAccessor
  material : Option Nat
  position : Option Nat
deriving DecidableEq

/-- Source mesh (`cgltf_mesh`): its primitives. -/
structure CMesh where
  primitives : List CPrimitive
deriving DecidableEq

/-- Source material (`cgltf_material`), metallic-roughness workflow fields
plus texture-presence flags; textures themselves are external images. -/
structure CMaterial where
  hasPbrMetallicRoughness : Bool
  baseColorTexture : Bool
  baseColorFactor0 : ℚ
  baseColorFactor1 : ℚ
  baseColorFactor2 : ℚ
  baseColorFactor3 : ℚ
  metallicRoughnessTexture : Bool
  roughnessFactor : ℚ
  metallicFactor : ℚ
  normalTexture : Bool
  occlusionTexture : Bool
  emissiveTexture : Bool
  emissiveFactor0 : ℚ
  emissiveFactor1 : ℚ
  emissiveFactor2 : ℚ
deriving DecidableEq

/-- Source node (`cgltf_node`): referenced mesh (as index, for the
pointer difference `node->mesh - data->meshes`), children (as indices, for
`children[j] - data->nodes`), and the optional TRS fields
(`has_translation` / `has_rotation` / `has_scale` with their values). -/
structure CNode where
  mesh : Option Nat
  children : List Nat
  translation : Option Vector3
  rotation : Option Quaternion
  scale : Option Vector3
deriving DecidableEq

/-- Source scene (`cgltf_scene`): its root nodes as indices. -/
structure CScene where
  nodes : List Nat
deriving DecidableEq

/-- Parsed glTF container (`cgltf_data`), restricted to the fields the
loader reads. `scene` is the value of `data->scene - data->scenes`. -/
structure CData where
  meshes : List CMesh
  materials : List CMaterial
  nodes : List CNode
  scenes : List CScene
  scene : Int
deriving DecidableEq

/-- Total number of primitives over all source meshes; the loader sets
`model.meshCount` to this value (lines 170-175 of the source). -/
def primitivesCount (d : CData) : Nat :=
  (d.meshes.map (fun m => m.primitives.length)).sum

/-- Check of `primitives[p].type == cgltf_primitive_type_triangles`. -/
def isTriangles (p : CPrimitive) : Bool :=
  match p.type with
  | CPrimitiveType.triangles => true
  | CPrimitiveType.other => false

/-- Triangle primitives of one source mesh, in order. -/
def trianglePrims (m : CMesh) : List CPrimitive :=
  m.primitives.filter isTriangles

/-- Number of triangle primitives of one source mesh. -/
def triCount (m : CMesh) : Nat := (trianglePrims m).length

/-- Triangle primitives of the whole container, in loader order. -/
def survivingPrims (d : CData) : List CPrimitive :=
  (d.meshes.map trianglePrims).flatten

/-- Loading of one triangle primitive into a renderer mesh, with the
warnings it emits: vertexCount from the POSITION attribute; triangleCount
and indices from the index accessor (u16 copied, u32 truncated to u16
with a lossy-conversion warning, other formats unsupported), else the
unindexed-mesh fallback `vertexCount/3`. -/
def loadPrimitiveMesh (p : CPrimitive) : Mesh × List Warning :=
  let vc := p.position.getD 0
  match p.indices with
  | some acc =>
    let tc := acc.values.length / 3
    match acc.componentType with
    | CComponentType.r16u =>
      ({ vertexCount := vc, triangleCount := tc, indices := some acc.values }, [])
    | CComponentType.r32u =>
      ({ vertexCount := vc, triangleCount := tc
         indices := some (acc.values.map (fun v => v % 65536)) },
       [Warning.lossyIndexConversion])
    | _ =>
      ({ vertexCount := vc, triangleCount := tc, indices := none },
       [Warning.indicesFormatNotSupported])
  | none => ({ vertexCount := vc, triangleCount := vc / 3, indices := none }, [])

/-- Material-index resolution for one primitive (lines 442-453): the loop
matches the primitive's material pointer against `&data->materials[m]` for
`m < materials_count` and assigns `m + 1`; no match (NULL pointer, or a
pointer outside the array) leaves the calloc default 0. -/
def resolveMaterialIndex (srcMaterialCount : Nat) (pm : Option Nat) : Nat :=
  match pm with
  | some m => if m < srcMaterialCount then m + 1 else 0
  | none => 0

/-- Import of one source material (lines 189-274): only the
metallic-roughness workflow is honored; the base-color factor is written
to the albedo map color unconditionally, the roughness/metalness scalar
factors only inside the metallic-roughness-texture branch, the emissive
factor only inside the emissive-texture branch. Texture handles are
external and not tracked. -/
def loadMaterial (src : CMaterial) : Material :=
  let m := LoadMaterialDefault
  if src.hasPbrMetallicRoughness then
    let m := { m with albedo := { m.albedo with color :=
      { r := toUChar (src.baseColorFactor0 * 255)
        g := toUChar (src.baseColorFactor1 * 255)
        b := toUChar (src.baseColorFactor2 * 255)
        a := toUChar (src.baseColorFactor3 * 255) } } }
    let m := if src.metallicRoughnessTexture then
      { m with roughness := { m.roughness with value := src.roughnessFactor }
               metalness := { m.metalness with value := src.metallicFactor } }
      else m
    let m := if src.emissiveTexture then
      { m with emission := { m.emission with color :=
        { r := toUChar (src.emissiveFactor0 * 255)
          g := toUChar (src.emissiveFactor1 * 255)
          b := toUChar (src.emissiveFactor2 * 255)
          a := 255 } } }
      else m
    m
  else m

/-- Inner loop of the mesh-loading pass over the primitives of one source
mesh (lines 284-458): non-triangle primitives are skipped, each triangle
primitive appends one (mesh, material-index) entry at the current
`meshIndex` (the running entry count) and its warnings. -/
def primFold (srcMaterialCount : Nat) (st : List (Mesh × Nat) × List Warning)
    (prims : List CPrimitive) : List (Mesh × Nat) × List Warning :=
  prims.foldl
    (fun s p =>
      if isTriangles p then
        (s.1 ++ [((loadPrimitiveMesh p).1, resolveMaterialIndex srcMaterialCount p.material)],
         s.2 ++ (loadPrimitiveMesh p).2)
      else s)
    st

/-- Outer loop of the mesh-loading pass (lines 280-460): per source mesh,
record `mesh_id_starts[i]` (the entry count before its primitives) and
`mesh_id_ends[i]` (the entry count after). -/
def meshFold (srcMaterialCount : Nat)
    (st : List (Mesh × Nat) × List (Nat × Nat) × List Warning)
    (meshes : List CMesh) : List (Mesh × Nat) × List (Nat × Nat) × List Warning :=
  meshes.foldl
    (fun s m =>
      let start := s.1.length
      let r := primFold srcMaterialCount (s.1, s.2.2) m.primitives
      (r.1, s.2.1 ++ [(start, r.1.length)], r.2))
    st

/-- Whole mesh-loading pass, from empty accumulators. -/
def loadMeshesAcc (srcMaterialCount : Nat) (meshes : List CMesh) :
    List (Mesh × Nat) × List (Nat × Nat) × List Warning :=
  meshFold srcMaterialCount ([], [], []) meshes

/-- Per-source-mesh interval table `(mesh_id_starts[i], mesh_id_ends[i])`. -/
def meshRanges (d : CData) : List (Nat × Nat) :=
  (loadMeshesAcc d.materials.length d.meshes).2.1

/-- Decomposed local transform of a node (raylib `Transform`). -/
structure Transform where
  translation : Vector3
  rotation : Quaternion
  scale : Vector3
deriving DecidableEq

/-- Loaded node (`GLTFNode` of rgltf.h): children ids, mesh interval
`[meshStart, meshEnd)` into the model mesh array, TRS transform and the
composed local transform matrix. `childrenCount` of the C struct always
equals the length of `children` (the loader allocates and fills all
entries), so it is represented by `children.length`. -/
structure GLTFNode where
  children : List Int
  meshStart : Int
  meshEnd : Int
  transform : Transform
  transformMatrix : Matrix
deriving DecidableEq

/-- Zero-initialized node (memset 0): out-of-bounds read default. -/
def GLTFNode.zero : GLTFNode :=
  { children := [], meshStart := 0, meshEnd := 0
    transform := { translation := ⟨0, 0, 0⟩, rotation := ⟨0, 0, 0, 0⟩, scale := ⟨0, 0, 0⟩ }
    transformMatrix := MatrixZero }

/-- Loaded scene (`GLTFScene` of rgltf.h): root node ids. `nodeCount`
always equals `nodes.length`. -/
structure GLTFScene where
  nodes : List Int
deriving DecidableEq

/-- Zero scene: out-of-bounds read default. -/
def GLTFScene.zero : GLTFScene := { nodes := [] }

/-- Loaded model (`GLTFModel` of rgltf.h). -/
structure GLTFModel where
  transform : Matrix
  meshCount : Nat
  materialCount : Nat
  meshes : List Mesh
  materials : List Material
  meshMaterial : List Nat
  nodeCount : Nat
  nodes : List GLTFNode
  sceneCount : Nat
  scenes : List GLTFScene
  scene : Int
deriving DecidableEq

/-- Zero-valued model, `GLTFModel model = { 0 }`: what LoadGLTFModelFile
returns when the file cannot be read or parsed. -/
def GLTFModel.zero : GLTFModel :=
  { transform := MatrixZero, meshCount := 0, materialCount := 0
    meshes := [], materials := [], meshMaterial := []
    nodeCount := 0, nodes := [], sceneCount := 0, scenes := [], scene := 0 }

/-- Node import (lines 469-521): mesh interval looked up in the range
table (nodes without a mesh get (-1, -1)); children converted to indices;
TRS fields stored when present (memset-zero translation and rotation, and
explicit unit scale, otherwise), and each branch uses the corresponding
matrix or MatrixIdentity; the composed local matrix is
`(scale x rotation) x translation` via MatrixMultiply. -/
def loadNode (ranges : List (Nat × Nat)) (n : CNode) : GLTFNode :=
  let meshStart : Int :=
    match n.mesh with
    | none => -1
    | some mid => ((ranges.getD mid (0, 0)).1 : Int)
  let meshEnd : Int :=
    match n.mesh with
    | none => -1
    | some mid => ((ranges.getD mid (0, 0)).2 : Int)
  let t : Vector3 := (n.translation).getD ⟨0, 0, 0⟩
  let matTranslation : Matrix :=
    match n.translation with
    | some v => MatrixTranslate v.x v.y v.z
    | none => MatrixIdentity
  let r : Quaternion := (n.rotation).getD ⟨0, 0, 0, 0⟩
  let matRotation : Matrix :=
    match n.rotation with
    | some q => QuaternionToMatrix q
    | none => MatrixIdentity
  let s : Vector3 := (n.scale).getD ⟨1, 1, 1⟩
  let matScale : Matrix :=
    match n.scale with
    | some v => MatrixScale v.x v.y v.z
    | none => MatrixIdentity
  { children := n.children.map Int.ofNat
    meshStart := meshStart
    meshEnd := meshEnd
    transform := { translation := t, rotation := r, scale := s }
    transformMatrix := MatrixMultiply (MatrixMultiply matScale matRotation) matTranslation }

/-- LoadGLTFModelFile (lines 127-602), as a function of the parsed
container: `none` models a file that cannot be read or parsed (zero-valued
model). On success: meshCount is the total primitive count and the mesh
and mesh-material arrays are the calloc'd arrays with the entries of the
triangle primitives written at indices 0.. and the remaining slots left
zeroed; materials are the default material followed by the imported source
materials; nodes, scenes and the default scene index as in the source. -/
def LoadGLTFModelFile (input : Option CData) : GLTFModel × List Warning :=
  match input with
  | none => (GLTFModel.zero, [Warning.parseFailed])
  | some d =>
    let primCount := primitivesCount d
    let acc := loadMeshesAcc d.materials.length d.meshes
    let entries := acc.1
    let ranges := acc.2.1
    let warns := acc.2.2
    ({ transform := MatrixZero
       meshCount := primCount
       materialCount := d.materials.length + 1
       meshes := entries.map Prod.fst ++ List.replicate (primCount - entries.length) Mesh.zero
       materials := LoadMaterialDefault :: d.materials.map loadMaterial
       meshMaterial := entries.map Prod.snd ++ List.replicate (primCount - entries.length) 0
       nodeCount := d.nodes.length
       nodes := d.nodes.map (loadNode ranges)
       sceneCount := d.scenes.length
       scenes := d.scenes.map (fun s => GLTFScene.mk (s.nodes.map Int.ofNat))
       scene := if 0 < d.scenes.length then d.scene else 0 },
     warns)

/-- LoadGLTFModel (lines 771-806): reset the model transform to identity;
if no mesh was produced, synthesize a single placeholder (a generated unit
cube when SUPPORT_MESH_GENERATION is compiled in, modelled by the
`supportMeshGeneration` flag, otherwise a calloc'd empty mesh) with a
warning; if no material was produced (parse-failure path), synthesize the
default material and a mesh-material array. GPU upload is external and
not modelled. -/
def LoadGLTFModel (supportMeshGeneration : Bool) (input : Option CData) :
    GLTFModel × List Warning :=
  let r := LoadGLTFModelFile input
  let model0 : GLTFModel := { r.1 with transform := MatrixIdentity }
  let step1 : GLTFModel × List Warning :=
    if model0.meshCount = 0 then
      ({ model0 with
          meshCount := 1
          meshes := [if supportMeshGeneration then GenMeshCube else Mesh.zero] },
       r.2 ++ [if supportMeshGeneration then Warning.meshLoadFailedDefaultCube
               else Warning.meshLoadFailed])
    else (model0, r.2)
  let model1 := step1.1
  if model1.materialCount = 0 then
    ({ model1 with
        materialCount := 1
        materials := [LoadMaterialDefault]
        meshMaterial :=
          if model1.meshMaterial.isEmpty then List.replicate model1.meshCount 0
          else model1.meshMaterial },
     step1.2 ++ [Warning.materialLoadFailed])
  else (model1, step1.2)

/-- One DrawMesh invocation of the renderer: the mesh index drawn, the
material value passed to DrawMesh (read from the materials array after the
temporary tint mutation), and the transform used. -/
structure DrawCall where
  meshIndex : Int
  material : Material
  transform : Matrix
deriving DecidableEq

/-- Tinted color computation of the draw loops (lines 633-637 and
679-683): start from WHITE, then overwrite every channel with
`(uchar)(((color.c/255.0) * (tint.c/255.0)) * 255.0f)`. -/
def computeColorTint (color tint : Color) : Color :=
  let colorTint := white
  { colorTint with
      r := toUChar ((color.r : ℚ) / 255 * ((tint.r : ℚ) / 255) * 255)
      g := toUChar ((color.g : ℚ) / 255 * ((tint.g : ℚ) / 255) * 255)
      b := toUChar ((color.b : ℚ) / 255 * ((tint.b : ℚ) / 255) * 255)
      a := toUChar ((color.a : ℚ) / 255 * ((tint.a : ℚ) / 255) * 255) }

/-- Spec-level tint composition, written from the spec's words: the
channel-wise product of the material color and the tint as normalized
0..1 fractions, rescaled to 0..255 (and truncated to a byte). -/
def specTintColor (color tint : Color) : Color :=
  { r := toUChar ((color.r : ℚ) / 255 * ((tint.r : ℚ) / 255) * 255)
    g := toUChar ((color.g : ℚ) / 255 * ((tint.g : ℚ) / 255) * 255)
    b := toUChar ((color.b : ℚ) / 255 * ((tint.b : ℚ) / 255) * 255)
    a := toUChar ((color.a : ℚ) / 255 * ((tint.a : ℚ) / 255) * 255) }

/-- Write of `materials[i].maps[MATERIAL_MAP_DIFFUSE].color = c` on the
materials array; out-of-range writes (impossible for loaded models) leave
the array unchanged. -/
def updateDiffuseColor (mats : List Material) (i : Nat) (c : Color) : List Material :=
  match mats[i]? with
  | some m => mats.set i { m with albedo := { m.albedo with color := c } }
  | none => mats

/-- Body of one iteration of the per-mesh draw loops (lines 631-642 and
677-688): read the material's diffuse color, overwrite it with the tinted
color, issue DrawMesh with the (mutated) material, restore the saved
color. Returns the updated materials array and the emitted draw call. -/
def drawMeshStep (model : GLTFModel) (mats : List Material) (j : Int)
    (transform : Matrix) (tint : Color) : List Material × DrawCall :=
  let mi := model.meshMaterial.getD j.toNat 0
  let color := (mats.getD mi Material.zero).albedo.color
  let colorTint := computeColorTint color tint
  let mats1 := updateDiffuseColor mats mi colorTint
  let call : DrawCall :=
    { meshIndex := j, material := mats1.getD mi Material.zero, transform := transform }
  let mats2 := updateDiffuseColor mats1 mi color
  (mats2, call)

/-- Iteration range of the C loop `for (int j = a; j < b; j++)`. -/
def intRange (a b : Int) : List Int :=
  (List.range (b - a).toNat).map (fun k => a + (k : Int))

/-- DrawGLTFNode (lines 667-691), with a fuel parameter standing for the
recursion (the C function recurses on a child graph that nothing prevents
from being cyclic; exhausted fuel draws nothing). In range: compute the
node transform `MatrixMultiply(node.transformMatrix, matTransform)`; with
children, recurse on each child with it; without children, run the
per-mesh draw loop over `[meshStart, meshEnd)`. Out of range: no draw
call, no state change. The materials array is threaded as state; the
trace of emitted draw calls is returned alongside. -/
def DrawGLTFNode : Nat → GLTFModel → List Material → Int → Matrix → Color →
    List Material × List DrawCall
  | 0, _, mats, _, _, _ => (mats, [])
  | fuel+1, model, mats, node_id, matTransform, tint =>
    if 0 ≤ node_id ∧ node_id < (model.nodeCount : Int) then
      let node := model.nodes.getD node_id.toNat GLTFNode.zero
      let nodeTransform := MatrixMultiply node.transformMatrix matTransform
      if 0 < node.children.length then
        node.children.foldl
          (fun s c =>
            let r := DrawGLTFNode fuel model s.1 c nodeTransform tint
            (r.1, s.2 ++ r.2))
          (mats, [])
      else
        (intRange node.meshStart node.meshEnd).foldl
          (fun s j =>
            let r := drawMeshStep model s.1 j nodeTransform tint
            (r.1, s.2 ++ [r.2]))
          (mats, [])
    else (mats, [])

/-- DrawGLTFScene (lines 704-713): in range, draw every root node of the
scene with the given transform; out of range, nothing. -/
def DrawGLTFScene (fuel : Nat) (model : GLTFModel) (mats : List Material)
    (scene_id : Int) (matTransform : Matrix) (tint : Color) :
    List Material × List DrawCall :=
  if 0 ≤ scene_id ∧ scene_id < (model.sceneCount : Int) then
    (model.scenes.getD scene_id.toNat GLTFScene.zero).nodes.foldl
      (fun s node_id =>
        let r := DrawGLTFNode fuel model s.1 node_id matTransform tint
        (r.1, s.2 ++ r.2))
      (mats, [])
  else (mats, [])

/-- Body of DrawGLTFModelEx (lines 614-644) after the parameter matrix is
built (the `matTransform` argument stands for the composed
scale/axis-angle-rotation/translation parameter matrix, whose
trigonometric construction is external raymath): combine it with the
model transform; with a valid non-empty default scene, draw that scene,
else run the flat per-mesh loop over all meshes. -/
def DrawGLTFModelWith (fuel : Nat) (model : GLTFModel) (matTransform : Matrix)
    (tint : Color) : List Material × List DrawCall :=
  let mt := MatrixMultiply model.transform matTransform
  if 0 ≤ model.scene ∧ model.scene < (model.sceneCount : Int) ∧
      0 < (model.scenes.getD model.scene.toNat GLTFScene.zero).nodes.length then
    DrawGLTFScene fuel { model with transform := mt } model.materials model.scene mt tint
  else
    (List.range model.meshCount).foldl
      (fun s i =>
        let r := drawMeshStep model s.1 (Int.ofNat i) mt tint
        (r.1, s.2 ++ [r.2]))
      (model.materials, [])

/-- Default primitive value used by total lookups in theorem statements. -/
def CPrimitive.zero : CPrimitive :=
  { type := CPrimitiveType.other, indices := none, material := none, position := none }

/-- Triangle primitive with no attributes, used by concrete test inputs. -/
def ptri : CPrimitive :=
  { type := CPrimitiveType.triangles, indices := none, material := none, position := none }

/-- Non-triangle (for example line-topology) primitive, used by concrete
test inputs. -/
def pline : CPrimitive :=
  { type := CPrimitiveType.other, indices := none, material := none, position := none }

/-- Source material with every feature flag off and zero factors, used by
concrete test inputs. -/
def cmat0 : CMaterial :=
  { hasPbrMetallicRoughness := false, baseColorTexture := false
    baseColorFactor0 := 0, baseColorFactor1 := 0, baseColorFactor2 := 0
    baseColorFactor3 := 0
    metallicRoughnessTexture := false, roughnessFactor := 0, metallicFactor := 0
    normalTexture := false, occlusionTexture := false, emissiveTexture := false
    emissiveFactor0 := 0, emissiveFactor1 := 0, emissiveFactor2 := 0 }

/-- Metallic-roughness source material without a metallic-roughness
texture, used by concrete test inputs. -/
def cmatW : CMaterial :=
  { cmat0 with
      hasPbrMetallicRoughness := true
      baseColorFactor0 := 1, baseColorFactor1 := 1/2, baseColorFactor2 := 0
      baseColorFactor3 := 1
      roughnessFactor := 3/4, metallicFactor := 1/4 }

/-- Metallic-roughness source material with a metallic-roughness texture,
used by concrete test inputs. -/
def cmatW2 : CMaterial :=
  { cmatW with metallicRoughnessTexture := true }

/-- Container with one source mesh holding one triangle and one
non-triangle primitive. -/
def d2 : CData :=
  { meshes := [{ primitives := [ptri, pline] }], materials := [], nodes := []
    scenes := [], scene := 0 }

/-- Container with one source mesh holding two triangle primitives, the
first pointing at source material 0, the second with a NULL material. -/
def d3 : CData :=
  { meshes := [{ primitives := [{ ptri with material := some 0 }, ptri] }]
    materials := [cmat0], nodes := [], scenes := [], scene := 0 }

/-- Container with one source mesh holding two non-triangle primitives:
zero valid (triangle) primitives, but two primitives in total. -/
def d7 : CData :=
  { meshes := [{ primitives := [pline, pline] }], materials := [], nodes := []
    scenes := [], scene := 0 }

/-- Source node with every optional field absent. -/
def cnode0 : CNode :=
  { mesh := none, children := [], translation := none, rotation := none
    scale := none }

/-- Leaf node drawing mesh 0, with identity local matrix. -/
def nodeLeaf : GLTFNode :=
  { children := [], meshStart := 0, meshEnd := 1
    transform := { translation := ⟨0, 0, 0⟩, rotation := ⟨0, 0, 0, 0⟩, scale := ⟨1, 1, 1⟩ }
    transformMatrix := MatrixIdentity }

/-- Root node with one child (node 1) and no mesh interval. -/
def nodeRoot : GLTFNode :=
  { children := [1], meshStart := -1, meshEnd := -1
    transform := { translation := ⟨0, 0, 0⟩, rotation := ⟨0, 0, 0, 0⟩, scale := ⟨1, 1, 1⟩ }
    transformMatrix := MatrixIdentity }

/-- Concrete two-node model (a root whose only child is a leaf drawing
mesh 0) used by concrete test instantiations of the draw theorems. -/
def Wmodel : GLTFModel :=
  { transform := MatrixIdentity, meshCount := 1, materialCount := 1
    meshes := [Mesh.zero], materials := [LoadMaterialDefault], meshMaterial := [0]
    nodeCount := 2, nodes := [nodeRoot, nodeLeaf]
    sceneCount := 1, scenes := [{ nodes := [0] }], scene := 0 }

/-- Draw call emitted for mesh 0 of `Wmodel` under identity transforms
and WHITE tint. -/
def dcW : DrawCall :=
  (drawMeshStep Wmodel Wmodel.materials 0 (MatrixMultiply MatrixIdentity MatrixIdentity)
    white).2

/-- Mesh-loading entry of one triangle primitive: its renderer mesh and
its mesh-material index. -/
def meshEntry (srcMaterialCount : Nat) (p : CPrimitive) : Mesh × Nat :=
  ((loadPrimitiveMesh p).1, resolveMaterialIndex srcMaterialCount p.material)

/-- Closed form of the per-source-mesh interval table: intervals advance
by the triangle-primitive count of each mesh. -/
def rangesFrom (n : Nat) : List CMesh → List (Nat × Nat)
  | [] => []
  | m :: rest => (n, n + triCount m) :: rangesFrom (n + triCount m) rest

/-- Number of triangle primitives strictly before source mesh `i`. -/
def triBefore (meshes : List CMesh) (i : Nat) : Nat :=
  ((meshes.take i).map triCount).sum

theorem updateDiffuseColor_nil (i : Nat) (c : Color) :
    updateDiffuseColor [] i c = [] := by
  simp [updateDiffuseColor]

theorem updateDiffuseColor_cons_zero (m : Material) (rest : List Material) (c : Color) :
    updateDiffuseColor (m :: rest) 0 c
      = { m with albedo := { m.albedo with color := c } } :: rest := by
  simp [updateDiffuseColor]

theorem updateDiffuseColor_cons_succ (m : Material) (rest : List Material) (i : Nat)
    (c : Color) :
    updateDiffuseColor (m :: rest) (i + 1) c = m :: updateDiffuseColor rest i c := by
  unfold updateDiffuseColor
  cases h : rest[i]? <;> simp [h]

theorem updateDiffuseColor_restore : ∀ (mats : List Material) (i : Nat) (c : Color),
    updateDiffuseColor (updateDiffuseColor mats i c) i
      ((mats.getD i Material.zero).albedo.color) = mats
  | [], i, c => by simp [updateDiffuseColor]
  | m :: rest, 0, c => by
    rw [updateDiffuseColor_cons_zero, updateDiffuseColor_cons_zero]
    rfl
  | m :: rest, i + 1, c => by
    rw [updateDiffuseColor_cons_succ, updateDiffuseColor_cons_succ]
    rw [show ((m :: rest).getD (i + 1) Material.zero) = rest.getD i Material.zero from rfl]
    rw [updateDiffuseColor_restore rest i c]

theorem updateDiffuseColor_getD : ∀ (mats : List Material) (i : Nat) (c : Color),
    i < mats.length →
    (updateDiffuseColor mats i c).getD i Material.zero
      = { mats.getD i Material.zero with
          albedo := { (mats.getD i Material.zero).albedo with color := c } }
  | [], i, c, h => by simp at h
  | m :: rest, 0, c, h => by
    rw [updateDiffuseColor_cons_zero]
    rfl
  | m :: rest, i + 1, c, h => by
    rw [updateDiffuseColor_cons_succ]
    have h' : i < rest.length := by simpa using h
    rw [show ((m :: updateDiffuseColor rest i c).getD (i + 1) Material.zero)
          = (updateDiffuseColor rest i c).getD i Material.zero from rfl]
    rw [show ((m :: rest).getD (i + 1) Material.zero) = rest.getD i Material.zero from rfl]
    exact updateDiffuseColor_getD rest i c h'

theorem foldl_fst_eq {α β : Type}
    (step : (List Material × List β) → α → (List Material × List β))
    (h : ∀ s a, (step s a).1 = s.1) :
    ∀ (l : List α) (s : List Material × List β), (l.foldl step s).1 = s.1
  | [], s => rfl
  | a :: l, s => by
    rw [List.foldl_cons, foldl_fst_eq step h l (step s a), h]

theorem foldl_trace_eq {α β : Type}
    (step : (List Material × List β) → α → (List Material × List β))
    (m0 : List Material) (t : α → List β)
    (h : ∀ (c : List β) (a : α), step (m0, c) a = (m0, c ++ t a)) :
    ∀ (l : List α) (c0 : List β),
      l.foldl step (m0, c0) = (m0, c0 ++ (l.map t).flatten)
  | [], c0 => by simp
  | a :: l, c0 => by
    rw [List.foldl_cons, h c0 a, foldl_trace_eq step m0 t h l (c0 ++ t a)]
    simp

theorem flatten_map_singleton {α β : Type} (l : List α) (f : α → β) :
    (l.map (fun a => [f a])).flatten = l.map f := by
  induction l with
  | nil => rfl
  | cons x xs ih => simp [ih]

theorem drawMeshStep_fst (model : GLTFModel) (mats : List Material) (j : Int)
    (T : Matrix) (tint : Color) : (drawMeshStep model mats j T tint).1 = mats := by
  unfold drawMeshStep
  exact updateDiffuseColor_restore mats _ _

theorem drawMeshStep_meshIndex (model : GLTFModel) (mats : List Material) (j : Int)
    (T : Matrix) (tint : Color) : ((drawMeshStep model mats j T tint).2).meshIndex = j := rfl

theorem drawMeshStep_transform (model : GLTFModel) (mats : List Material) (j : Int)
    (T : Matrix) (tint : Color) : ((drawMeshStep model mats j T tint).2).transform = T := rfl

theorem drawMeshStep_color (model : GLTFModel) (mats : List Material) (j : Int)
    (T : Matrix) (tint : Color)
    (h : model.meshMaterial.getD j.toNat 0 < mats.length) :
    ((drawMeshStep model mats j T tint).2).material.albedo.color
      = computeColorTint
          ((mats.getD (model.meshMaterial.getD j.toNat 0) Material.zero).albedo.color)
          tint := by
  simp only [drawMeshStep]
  rw [updateDiffuseColor_getD mats _ _ h]

theorem DrawGLTFNode_zero_fuel (model : GLTFModel) (mats : List Material) (nid : Int)
    (T : Matrix) (tint : Color) : DrawGLTFNode 0 model mats nid T tint = (mats, []) := rfl

theorem DrawGLTFNode_out_of_range (fuel : Nat) (model : GLTFModel) (mats : List Material)
    (nid : Int) (T : Matrix) (tint : Color)
    (h : ¬(0 ≤ nid ∧ nid < (model.nodeCount : Int))) :
    DrawGLTFNode fuel model mats nid T tint = (mats, []) := by
  cases fuel with
  | zero => rfl
  | succ n => simp only [DrawGLTFNode]; rw [if_neg h]

theorem DrawGLTFNode_fst : ∀ (fuel : Nat) (model : GLTFModel) (mats : List Material)
    (nid : Int) (T : Matrix) (tint : Color),
    (DrawGLTFNode fuel model mats nid T tint).1 = mats := by
  intro fuel
  induction fuel with
  | zero => intro model mats nid T tint; rfl
  | succ n ih =>
    intro model mats nid T tint
    simp only [DrawGLTFNode]
    by_cases h : 0 ≤ nid ∧ nid < (model.nodeCount : Int)
    · rw [if_pos h]
      by_cases hc : 0 < (model.nodes.getD nid.toNat GLTFNode.zero).children.length
      · rw [if_pos hc]
        apply foldl_fst_eq
        intro s a
        exact ih model s.1 a _ tint
      · rw [if_neg hc]
        apply foldl_fst_eq
        intro s a
        exact drawMeshStep_fst model s.1 a
          (MatrixMultiply (model.nodes.getD nid.toNat GLTFNode.zero).transformMatrix T) tint
    · rw [if_neg h]

theorem DrawGLTFNode_succ_children (fuel : Nat) (model : GLTFModel) (mats : List Material)
    (nid : Int) (T : Matrix) (tint : Color)
    (h0 : 0 ≤ nid) (h1 : nid < (model.nodeCount : Int))
    (hc : 0 < (model.nodes.getD nid.toNat GLTFNode.zero).children.length) :
    DrawGLTFNode (fuel + 1) model mats nid T tint
      = (mats,
         ((model.nodes.getD nid.toNat GLTFNode.zero).children.map
           (fun c => (DrawGLTFNode fuel model mats c
             (MatrixMultiply (model.nodes.getD nid.toNat GLTFNode.zero).transformMatrix T)
             tint).2)).flatten) := by
  simp only [DrawGLTFNode]
  rw [if_pos ⟨h0, h1⟩, if_pos hc]
  refine Eq.trans
    (foldl_trace_eq _ mats
      (fun c => (DrawGLTFNode fuel model mats c
        (MatrixMultiply (model.nodes.getD nid.toNat GLTFNode.zero).transformMatrix T)
        tint).2)
      (fun c a => ?_) _ []) (by simp)
  simp only []
  rw [DrawGLTFNode_fst]

theorem DrawGLTFNode_succ_leaf (fuel : Nat) (model : GLTFModel) (mats : List Material)
    (nid : Int) (T : Matrix) (tint : Color)
    (h0 : 0 ≤ nid) (h1 : nid < (model.nodeCount : Int))
    (hc : ¬0 < (model.nodes.getD nid.toNat GLTFNode.zero).children.length) :
    DrawGLTFNode (fuel + 1) model mats nid T tint
      = (mats,
         (intRange (model.nodes.getD nid.toNat GLTFNode.zero).meshStart
                   (model.nodes.getD nid.toNat GLTFNode.zero).meshEnd).map
           (fun j => (drawMeshStep model mats j
             (MatrixMultiply (model.nodes.getD nid.toNat GLTFNode.zero).transformMatrix T)
             tint).2)) := by
  simp only [DrawGLTFNode]
  rw [if_pos ⟨h0, h1⟩, if_neg hc]
  refine Eq.trans
    (foldl_trace_eq _ mats
      (fun j => [(drawMeshStep model mats j
        (MatrixMultiply (model.nodes.getD nid.toNat GLTFNode.zero).transformMatrix T)
        tint).2])
      (fun c a => ?_) _ [])
    (by rw [flatten_map_singleton]; simp)
  simp only []
  rw [drawMeshStep_fst]

theorem DrawGLTFScene_fst (fuel : Nat) (model : GLTFModel) (mats : List Material)
    (sid : Int) (T : Matrix) (tint : Color) :
    (DrawGLTFScene fuel model mats sid T tint).1 = mats := by
  unfold DrawGLTFScene
  by_cases h : 0 ≤ sid ∧ sid < (model.sceneCount : Int)
  · rw [if_pos h]
    apply foldl_fst_eq
    intro s a
    exact DrawGLTFNode_fst fuel model s.1 a T tint
  · rw [if_neg h]

theorem DrawGLTFScene_out_of_range (fuel : Nat) (model : GLTFModel) (mats : List Material)
    (sid : Int) (T : Matrix) (tint : Color)
    (h : ¬(0 ≤ sid ∧ sid < (model.sceneCount : Int))) :
    DrawGLTFScene fuel model mats sid T tint = (mats, []) := by
  unfold DrawGLTFScene
  rw [if_neg h]

theorem DrawGLTFScene_trace (fuel : Nat) (model : GLTFModel) (mats : List Material)
    (sid : Int) (T : Matrix) (tint : Color)
    (h : 0 ≤ sid ∧ sid < (model.sceneCount : Int)) :
    DrawGLTFScene fuel model mats sid T tint
      = (mats,
         ((model.scenes.getD sid.toNat GLTFScene.zero).nodes.map
           (fun nid => (DrawGLTFNode fuel model mats nid T tint).2)).flatten) := by
  unfold DrawGLTFScene
  rw [if_pos h]
  refine Eq.trans
    (foldl_trace_eq _ mats
      (fun nid => (DrawGLTFNode fuel model mats nid T tint).2)
      (fun c a => ?_) _ []) (by simp)
  simp only []
  rw [DrawGLTFNode_fst]

theorem DrawGLTFModelWith_fst (fuel : Nat) (model : GLTFModel) (T : Matrix) (tint : Color) :
    (DrawGLTFModelWith fuel model T tint).1 = model.materials := by
  unfold DrawGLTFModelWith
  by_cases h : 0 ≤ model.scene ∧ model.scene < (model.sceneCount : Int) ∧
      0 < (model.scenes.getD model.scene.toNat GLTFScene.zero).nodes.length
  · rw [if_pos h]
    exact DrawGLTFScene_fst fuel _ model.materials model.scene _ tint
  · rw [if_neg h]
    apply foldl_fst_eq
    intro s a
    exact drawMeshStep_fst model s.1 (Int.ofNat a) (MatrixMultiply model.transform T) tint

theorem getD_mem_or_default {α : Type} (l : List α) (n : Nat) (d : α) :
    l.getD n d ∈ l ∨ l.getD n d = d := by
  cases h : l[n]? with
  | none => right; simp [List.getD, h]
  | some a =>
    left
    have ha : l.getD n d = a := by simp [List.getD, h]
    rw [ha]
    exact List.getElem?_mem h

theorem computeColorTint_eq_specTintColor (c t : Color) :
    computeColorTint c t = specTintColor c t := rfl

theorem DrawGLTFNode_trace_color : ∀ (fuel : Nat) (model : GLTFModel)
    (mats : List Material) (nid : Int) (T : Matrix) (tint : Color),
    (∀ k ∈ model.meshMaterial, k < mats.length) → 0 < mats.length →
    ∀ dc ∈ (DrawGLTFNode fuel model mats nid T tint).2,
      dc.material.albedo.color
        = computeColorTint
            ((mats.getD (model.meshMaterial.getD dc.meshIndex.toNat 0)
              Material.zero).albedo.color)
            tint := by
  intro fuel
  induction fuel with
  | zero =>
    intro model mats nid T tint hwf hm dc hdc
    simp [DrawGLTFNode_zero_fuel] at hdc
  | succ n ih =>
    intro model mats nid T tint hwf hm dc hdc
    by_cases h : 0 ≤ nid ∧ nid < (model.nodeCount : Int)
    · by_cases hc : 0 < (model.nodes.getD nid.toNat GLTFNode.zero).children.length
      · rw [DrawGLTFNode_succ_children n model mats nid T tint h.1 h.2 hc] at hdc
        simp only [List.mem_flatten, List.mem_map] at hdc
        obtain ⟨l, ⟨c, hcmem, rfl⟩, hdl⟩ := hdc
        exact ih model mats c _ tint hwf hm dc hdl
      · rw [DrawGLTFNode_succ_leaf n model mats nid T tint h.1 h.2 hc] at hdc
        simp only [List.mem_map] at hdc
        obtain ⟨j, hj, rfl⟩ := hdc
        have hmi : model.meshMaterial.getD j.toNat 0 < mats.length := by
          rcases getD_mem_or_default model.meshMaterial j.toNat 0 with hmem | hdef
          · exact hwf _ hmem
          · rw [hdef]; exact hm
        rw [drawMeshStep_meshIndex]
        exact drawMeshStep_color model mats j _ tint hmi
    · rw [DrawGLTFNode_out_of_range _ _ _ _ _ _ h] at hdc
      simp at hdc

theorem DrawGLTFModelWith_flat_trace (fuel : Nat) (model : GLTFModel) (T : Matrix)
    (tint : Color)
    (h : ¬(0 ≤ model.scene ∧ model.scene < (model.sceneCount : Int) ∧
        0 < (model.scenes.getD model.scene.toNat GLTFScene.zero).nodes.length)) :
    DrawGLTFModelWith fuel model T tint
      = (model.materials,
         (List.range model.meshCount).map
           (fun i => (drawMeshStep model model.materials (Int.ofNat i)
             (MatrixMultiply model.transform T) tint).2)) := by
  unfold DrawGLTFModelWith
  rw [if_neg h]
  refine Eq.trans
    (foldl_trace_eq _ model.materials
      (fun i => [(drawMeshStep model model.materials (Int.ofNat i)
        (MatrixMultiply model.transform T) tint).2])
      (fun c a => ?_) _ [])
    (by rw [flatten_map_singleton]; simp)
  simp only []
  rw [drawMeshStep_fst]

theorem primFold_spec (mc : Nat) : ∀ (prims : List CPrimitive)
    (es : List (Mesh × Nat)) (ws : List Warning),
    primFold mc (es, ws) prims
      = (es ++ (prims.filter isTriangles).map (meshEntry mc),
         ws ++ ((prims.filter isTriangles).map
           (fun p => (loadPrimitiveMesh p).2)).flatten) := by
  intro prims
  induction prims with
  | nil => intro es ws; simp [primFold]
  | cons p prims ih =>
    intro es ws
    by_cases h : isTriangles p
    · have step : primFold mc (es, ws) (p :: prims)
          = primFold mc (es ++ [meshEntry mc p], ws ++ (loadPrimitiveMesh p).2) prims := by
        simp [primFold, h, meshEntry]
      rw [step, ih]
      simp [List.filter_cons, h, List.append_assoc]
    · have step : primFold mc (es, ws) (p :: prims) = primFold mc (es, ws) prims := by
        simp [primFold, h]
      rw [step, ih]
      simp [List.filter_cons, h]

theorem meshFold_spec (mc : Nat) : ∀ (meshes : List CMesh)
    (es : List (Mesh × Nat)) (rs : List (Nat × Nat)) (ws : List Warning),
    meshFold mc (es, rs, ws) meshes
      = (es ++ ((meshes.map trianglePrims).flatten).map (meshEntry mc),
         rs ++ rangesFrom es.length meshes,
         ws ++ ((meshes.map trianglePrims).flatten.map
           (fun p => (loadPrimitiveMesh p).2)).flatten) := by
  intro meshes
  induction meshes with
  | nil => intro es rs ws; simp [meshFold, rangesFrom]
  | cons m meshes ih =>
    intro es rs ws
    have step : meshFold mc (es, rs, ws) (m :: meshes)
        = meshFold mc
            (es ++ (trianglePrims m).map (meshEntry mc),
             rs ++ [(es.length, es.length + triCount m)],
             ws ++ ((trianglePrims m).map (fun p => (loadPrimitiveMesh p).2)).flatten)
            meshes := by
      simp only [meshFold, List.foldl_cons]
      rw [show (primFold mc (es, ws) m.primitives)
            = (es ++ (m.primitives.filter isTriangles).map (meshEntry mc),
               ws ++ ((m.primitives.filter isTriangles).map
                 (fun p => (loadPrimitiveMesh p).2)).flatten) from primFold_spec mc _ es ws]
      simp [trianglePrims, triCount, List.length_append]
    rw [step, ih]
    simp [rangesFrom, triCount, List.append_assoc, List.length_append]

theorem loadMeshesAcc_spec (mc : Nat) (meshes : List CMesh) :
    loadMeshesAcc mc meshes
      = (((meshes.map trianglePrims).flatten).map (meshEntry mc),
         rangesFrom 0 meshes,
         ((meshes.map trianglePrims).flatten.map
           (fun p => (loadPrimitiveMesh p).2)).flatten) := by
  unfold loadMeshesAcc
  rw [meshFold_spec]
  simp

theorem LoadGLTFModelFile_meshCount (d : CData) :
    (LoadGLTFModelFile (some d)).1.meshCount = primitivesCount d := rfl

theorem LoadGLTFModelFile_materialCount (d : CData) :
    (LoadGLTFModelFile (some d)).1.materialCount = d.materials.length + 1 := rfl

theorem LoadGLTFModelFile_materials (d : CData) :
    (LoadGLTFModelFile (some d)).1.materials
      = LoadMaterialDefault :: d.materials.map loadMaterial := rfl

theorem LoadGLTFModelFile_nodes (d : CData) :
    (LoadGLTFModelFile (some d)).1.nodes = d.nodes.map (loadNode (meshRanges d)) := rfl

theorem LoadGLTFModelFile_meshMaterial (d : CData) :
    (LoadGLTFModelFile (some d)).1.meshMaterial
      = (survivingPrims d).map
          (fun p => resolveMaterialIndex d.materials.length p.material)
        ++ List.replicate (primitivesCount d - (survivingPrims d).length) 0 := by
  have h1 : (loadMeshesAcc d.materials.length d.meshes).1.map Prod.snd
      = (survivingPrims d).map
          (fun p => resolveMaterialIndex d.materials.length p.material) := by
    rw [loadMeshesAcc_spec, List.map_map]
    rfl
  have h2 : (loadMeshesAcc d.materials.length d.meshes).1.length
      = (survivingPrims d).length := by
    rw [loadMeshesAcc_spec, List.length_map]
    rfl
  show ((loadMeshesAcc d.materials.length d.meshes).1.map Prod.snd)
      ++ List.replicate
            (primitivesCount d - (loadMeshesAcc d.materials.length d.meshes).1.length) 0
      = _
  rw [h1, h2]

theorem LoadGLTFModelFile_meshes (d : CData) :
    (LoadGLTFModelFile (some d)).1.meshes
      = (survivingPrims d).map (fun p => (loadPrimitiveMesh p).1)
        ++ List.replicate (primitivesCount d - (survivingPrims d).length) Mesh.zero := by
  have h1 : (loadMeshesAcc d.materials.length d.meshes).1.map Prod.fst
      = (survivingPrims d).map (fun p => (loadPrimitiveMesh p).1) := by
    rw [loadMeshesAcc_spec, List.map_map]
    rfl
  have h2 : (loadMeshesAcc d.materials.length d.meshes).1.length
      = (survivingPrims d).length := by
    rw [loadMeshesAcc_spec, List.length_map]
    rfl
  show ((loadMeshesAcc d.materials.length d.meshes).1.map Prod.fst)
      ++ List.replicate
          (primitivesCount d - (loadMeshesAcc d.materials.length d.meshes).1.length)
          Mesh.zero
      = _
  rw [h1, h2]

theorem meshRanges_eq (d : CData) : meshRanges d = rangesFrom 0 d.meshes := by
  unfold meshRanges
  rw [loadMeshesAcc_spec]

theorem rangesFrom_getD : ∀ (meshes : List CMesh) (n i : Nat), i < meshes.length →
    (rangesFrom n meshes).getD i (0, 0)
      = (n + triBefore meshes i,
         n + triBefore meshes i + triCount (meshes.getD i (CMesh.mk [])))
  | [], n, i, h => by simp at h
  | m :: rest, n, 0, h => by
    simp [rangesFrom, triBefore, List.getD]
  | m :: rest, n, i + 1, h => by
    have h' : i < rest.length := by simpa using h
    have hcons : (rangesFrom n (m :: rest)).getD (i + 1) (0, 0)
        = (rangesFrom (n + triCount m) rest).getD i (0, 0) := by
      simp [rangesFrom, List.getD]
    rw [hcons, rangesFrom_getD rest (n + triCount m) i h']
    have hb : triBefore (m :: rest) (i + 1) = triCount m + triBefore rest i := by
      simp [triBefore]
    have hg : (m :: rest).getD (i + 1) (CMesh.mk []) = rest.getD i (CMesh.mk []) := by
      simp [List.getD]
    rw [hb, hg, Prod.ext_iff]
    constructor
    · simp [Nat.add_assoc]
    · simp [Nat.add_assoc]

theorem survivingPrims_length_le (d : CData) :
    (survivingPrims d).length ≤ primitivesCount d := by
  unfold survivingPrims primitivesCount
  rw [List.length_flatten, List.map_map]
  apply List.sum_le_sum
  intro m _
  simpa [trianglePrims] using List.length_filter_le isTriangles m.primitives

theorem resolveMaterialIndex_lt (c : Nat) (pm : Option Nat) :
    resolveMaterialIndex c pm < c + 1 := by
  cases pm with
  | none => simp only [resolveMaterialIndex]; omega
  | some m => simp only [resolveMaterialIndex]; split <;> omega

theorem meshMaterial_getD_lt (d : CData) (i : Nat) :
    (LoadGLTFModelFile (some d)).1.meshMaterial.getD i 0
      < (LoadGLTFModelFile (some d)).1.materialCount := by
  rw [LoadGLTFModelFile_meshMaterial, LoadGLTFModelFile_materialCount]
  rcases getD_mem_or_default
      ((survivingPrims d).map
          (fun p => resolveMaterialIndex d.materials.length p.material)
        ++ List.replicate (primitivesCount d - (survivingPrims d).length) 0) i 0 with
    hmem | hdef
  · rcases List.mem_append.mp hmem with hl | hr
    · obtain ⟨p, _, heq⟩ := List.mem_map.mp hl
      rw [← heq]
      exact resolveMaterialIndex_lt _ _
    · rw [List.eq_of_mem_replicate hr]
      omega
  · rw [hdef]
    omega

theorem meshMaterial_getD_of_lt (d : CData) (k : Nat)
    (h : k < (survivingPrims d).length) :
    (LoadGLTFModelFile (some d)).1.meshMaterial.getD k 0
      = resolveMaterialIndex d.materials.length
          ((survivingPrims d).getD k CPrimitive.zero).material := by
  rw [LoadGLTFModelFile_meshMaterial]
  have hk : k < ((survivingPrims d).map
      (fun p => resolveMaterialIndex d.materials.length p.material)).length := by
    simpa using h
  simp [List.getD, List.getElem?_append_left hk, List.getElem?_map,
    List.getElem?_eq_getElem h, List.getElem?_eq_getElem hk]

theorem LoadGLTFModel_zero_meshes (sg : Bool) (input : Option CData)
    (h : (LoadGLTFModelFile input).1.meshCount = 0) :
    (LoadGLTFModel sg input).1.meshCount = 1
    ∧ (LoadGLTFModel sg input).1.meshes = [if sg then GenMeshCube else Mesh.zero]
    ∧ (if sg then Warning.meshLoadFailedDefaultCube else Warning.meshLoadFailed)
        ∈ (LoadGLTFModel sg input).2 := by
  simp only [LoadGLTFModel]
  split_ifs <;> exact ⟨rfl, rfl, by simp⟩

theorem LoadGLTFModel_meshCount_of_pos (sg : Bool) (input : Option CData)
    (h : (LoadGLTFModelFile input).1.meshCount ≠ 0) :
    (LoadGLTFModel sg input).1.meshCount = (LoadGLTFModelFile input).1.meshCount := by
  simp only [LoadGLTFModel]
  split_ifs <;>
    first
      | rfl
      | exact absurd (by assumption) h

theorem MatrixScale_unit : MatrixScale 1 1 1 = MatrixIdentity := rfl

theorem MatrixTranslate_zeroes : MatrixTranslate 0 0 0 = MatrixIdentity := rfl

theorem QuaternionToMatrix_zeroQuat :
    QuaternionToMatrix ⟨0, 0, 0, 0⟩ = MatrixIdentity := by
  simp only [QuaternionToMatrix, MatrixIdentity]
  norm_num

/-- C1: for every model, every in-range node id and every inherited
transform T, one step of DrawGLTFNode computes the child transform
`T' = MatrixMultiply(node.transformMatrix, T)`; if the node has children
the emitted draw calls are exactly the concatenation of the recursive
calls on each child with T' (none of the node's own meshes is drawn at
this step) and the materials are unchanged; if it has no children the
emitted draw calls are exactly one per mesh index in
`[meshStart, meshEnd)`, each with transform T'. -/
theorem C1_node_traversal_step (fuel : Nat) (model : GLTFModel) (mats : List Material)
    (nid : Int) (T : Matrix) (tint : Color)
    (h0 : 0 ≤ nid) (h1 : nid < (model.nodeCount : Int)) :
    (0 < (model.nodes.getD nid.toNat GLTFNode.zero).children.length →
      DrawGLTFNode (fuel + 1) model mats nid T tint
        = (mats,
           ((model.nodes.getD nid.toNat GLTFNode.zero).children.map
             (fun c => (DrawGLTFNode fuel model mats c
               (MatrixMultiply (model.nodes.getD nid.toNat GLTFNode.zero).transformMatrix T)
               tint).2)).flatten))
    ∧ ((model.nodes.getD nid.toNat GLTFNode.zero).children.length = 0 →
      DrawGLTFNode (fuel + 1) model mats nid T tint
        = (mats,
           (intRange (model.nodes.getD nid.toNat GLTFNode.zero).meshStart
                     (model.nodes.getD nid.toNat GLTFNode.zero).meshEnd).map
             (fun j => (drawMeshStep model mats j
               (MatrixMultiply (model.nodes.getD nid.toNat GLTFNode.zero).transformMatrix T)
               tint).2))) :=
  ⟨fun hc => DrawGLTFNode_succ_children fuel model mats nid T tint h0 h1 hc,
   fun hc => DrawGLTFNode_succ_leaf fuel model mats nid T tint h0 h1 (by omega)⟩

/-- C1 witness: the traversal step instantiated at the two-node model
`Wmodel`, node 0 (the root with one child). -/
theorem C1_witness :
    ((0 : Int) ≤ 0 ∧ (0 : Int) < (Wmodel.nodeCount : Int))
    ∧ ((0 < (Wmodel.nodes.getD (0 : Int).toNat GLTFNode.zero).children.length →
      DrawGLTFNode (1 + 1) Wmodel Wmodel.materials 0 MatrixIdentity white
        = (Wmodel.materials,
           ((Wmodel.nodes.getD (0 : Int).toNat GLTFNode.zero).children.map
             (fun c => (DrawGLTFNode 1 Wmodel Wmodel.materials c
               (MatrixMultiply
                 (Wmodel.nodes.getD (0 : Int).toNat GLTFNode.zero).transformMatrix
                 MatrixIdentity)
               white).2)).flatten))
    ∧ ((Wmodel.nodes.getD (0 : Int).toNat GLTFNode.zero).children.length = 0 →
      DrawGLTFNode (1 + 1) Wmodel Wmodel.materials 0 MatrixIdentity white
        = (Wmodel.materials,
           (intRange (Wmodel.nodes.getD (0 : Int).toNat GLTFNode.zero).meshStart
                     (Wmodel.nodes.getD (0 : Int).toNat GLTFNode.zero).meshEnd).map
             (fun j => (drawMeshStep Wmodel Wmodel.materials j
               (MatrixMultiply
                 (Wmodel.nodes.getD (0 : Int).toNat GLTFNode.zero).transformMatrix
                 MatrixIdentity)
               white).2)))) :=
  ⟨⟨by decide, by decide⟩,
   C1_node_traversal_step 1 Wmodel Wmodel.materials 0 MatrixIdentity white
     (by decide) (by decide)⟩

/-- C4: a 32-bit-unsigned index accessor is narrowed to 16 bits by
truncation modulo 65536, the index data is still produced, and the
lossy-conversion warning is emitted; a 16-bit accessor is copied
unchanged with no lossy-conversion warning. -/
theorem C4_index_narrowing (vs : List Nat) (mat : Option Nat) (pos : Option Nat) :
    ((loadPrimitiveMesh
        { type := CPrimitiveType.triangles
          indices := some { componentType := CComponentType.r32u, values := vs }
          material := mat, position := pos }).1.indices
        = some (vs.map (fun v => v % 65536))
      ∧ Warning.lossyIndexConversion ∈
          (loadPrimitiveMesh
            { type := CPrimitiveType.triangles
              indices := some { componentType := CComponentType.r32u, values := vs }
              material := mat, position := pos }).2)
    ∧ ((loadPrimitiveMesh
        { type := CPrimitiveType.triangles
          indices := some { componentType := CComponentType.r16u, values := vs }
          material := mat, position := pos }).1.indices = some vs
      ∧ Warning.lossyIndexConversion ∉
          (loadPrimitiveMesh
            { type := CPrimitiveType.triangles
              indices := some { componentType := CComponentType.r16u, values := vs }
              material := mat, position := pos }).2) := by
  refine ⟨⟨rfl, ?_⟩, ⟨rfl, ?_⟩⟩
  · simp [loadPrimitiveMesh]
  · simp [loadPrimitiveMesh]

/-- C4 witness: the spec's example, a 32-bit index buffer [0, 70000, 3]
truncating to [0, 4464, 3] with the lossy warning. -/
theorem C4_witness :
    (loadPrimitiveMesh
      { type := CPrimitiveType.triangles
        indices := some { componentType := CComponentType.r32u, values := [0, 70000, 3] }
        material := none, position := none }).1.indices = some [0, 4464, 3]
    ∧ Warning.lossyIndexConversion ∈
      (loadPrimitiveMesh
        { type := CPrimitiveType.triangles
          indices := some { componentType := CComponentType.r32u, values := [0, 70000, 3] }
          material := none, position := none }).2 :=
  ⟨((C4_index_narrowing [0, 70000, 3] none none).1.1).trans (by decide),
   (C4_index_narrowing [0, 70000, 3] none none).1.2⟩

/-- C6: every draw entry point (recursive node path, scene path, and the
whole-model path with its flat fallback loop) returns the materials array
bit-identical to its value before the call: the tinted diffuse color is
applied only for the duration of each mesh draw and then restored. -/
theorem C6_materials_restored :
    (∀ (fuel : Nat) (model : GLTFModel) (mats : List Material) (nid : Int)
        (T : Matrix) (tint : Color),
      (DrawGLTFNode fuel model mats nid T tint).1 = mats)
    ∧ (∀ (fuel : Nat) (model : GLTFModel) (mats : List Material) (sid : Int)
        (T : Matrix) (tint : Color),
      (DrawGLTFScene fuel model mats sid T tint).1 = mats)
    ∧ (∀ (fuel : Nat) (model : GLTFModel) (T : Matrix) (tint : Color),
      (DrawGLTFModelWith fuel model T tint).1 = model.materials) :=
  ⟨DrawGLTFNode_fst, DrawGLTFScene_fst, DrawGLTFModelWith_fst⟩

/-- C10: DrawGLTFNode with an out-of-range node id and DrawGLTFScene with
an out-of-range scene id are no-ops: no draw call is emitted and the
materials state is returned unchanged (the range guard precedes every
array access in the source). -/
theorem C10_out_of_range_noop :
    (∀ (fuel : Nat) (model : GLTFModel) (mats : List Material) (nid : Int)
        (T : Matrix) (tint : Color),
      (nid < 0 ∨ (model.nodeCount : Int) ≤ nid) →
      DrawGLTFNode fuel model mats nid T tint = (mats, []))
    ∧ (∀ (fuel : Nat) (model : GLTFModel) (mats : List Material) (sid : Int)
        (T : Matrix) (tint : Color),
      (sid < 0 ∨ (model.sceneCount : Int) ≤ sid) →
      DrawGLTFScene fuel model mats sid T tint = (mats, [])) := by
  constructor
  · intro fuel model mats nid T tint h
    exact DrawGLTFNode_out_of_range fuel model mats nid T tint (by omega)
  · intro fuel model mats sid T tint h
    exact DrawGLTFScene_out_of_range fuel model mats sid T tint (by omega)

/-- C10 witness: node id -1 and scene id 5 on the concrete model
`Wmodel` (2 nodes, 1 scene) are no-ops. -/
theorem C10_witness :
    ((-1 : Int) < 0 ∨ (Wmodel.nodeCount : Int) ≤ -1)
    ∧ DrawGLTFNode 1 Wmodel Wmodel.materials (-1) MatrixIdentity white
        = (Wmodel.materials, [])
    ∧ ((5 : Int) < 0 ∨ (Wmodel.sceneCount : Int) ≤ 5)
    ∧ DrawGLTFScene 1 Wmodel Wmodel.materials 5 MatrixIdentity white
        = (Wmodel.materials, []) :=
  ⟨Or.inl (by decide),
   C10_out_of_range_noop.1 1 Wmodel Wmodel.materials (-1) MatrixIdentity white
     (Or.inl (by decide)),
   Or.inr (by decide),
   C10_out_of_range_noop.2 1 Wmodel Wmodel.materials 5 MatrixIdentity white
     (Or.inr (by decide))⟩

/-- C5: for every draw call emitted by the node path or by the
whole-model path, the diffuse color of the material passed to DrawMesh is
the channel-wise product of the material's stored diffuse color and the
caller tint as normalized 0..1 fractions rescaled to 0..255, provided
every mesh-material index is in range of the materials array (the
material-index invariant of loaded models) and the materials array is
non-empty. -/
theorem C5_tint_composition :
    (∀ (fuel : Nat) (model : GLTFModel) (mats : List Material) (nid : Int)
        (T : Matrix) (tint : Color),
      (∀ k ∈ model.meshMaterial, k < mats.length) → 0 < mats.length →
      ∀ dc ∈ (DrawGLTFNode fuel model mats nid T tint).2,
        dc.material.albedo.color
          = specTintColor
              ((mats.getD (model.meshMaterial.getD dc.meshIndex.toNat 0)
                Material.zero).albedo.color)
              tint)
    ∧ (∀ (fuel : Nat) (model : GLTFModel) (T : Matrix) (tint : Color),
      (∀ k ∈ model.meshMaterial, k < model.materials.length) →
      0 < model.materials.length →
      ∀ dc ∈ (DrawGLTFModelWith fuel model T tint).2,
        dc.material.albedo.color
          = specTintColor
              ((model.materials.getD (model.meshMaterial.getD dc.meshIndex.toNat 0)
                Material.zero).albedo.color)
              tint) := by
  constructor
  · intro fuel model mats nid T tint hwf hm dc hdc
    rw [← computeColorTint_eq_specTintColor]
    exact DrawGLTFNode_trace_color fuel model mats nid T tint hwf hm dc hdc
  · intro fuel model T tint hwf hm dc hdc
    rw [← computeColorTint_eq_specTintColor]
    by_cases hg : 0 ≤ model.scene ∧ model.scene < (model.sceneCount : Int) ∧
        0 < (model.scenes.getD model.scene.toNat GLTFScene.zero).nodes.length
    · unfold DrawGLTFModelWith at hdc
      rw [if_pos hg] at hdc
      rw [DrawGLTFScene_trace fuel
          { model with transform := MatrixMultiply model.transform T }
          model.materials model.scene (MatrixMultiply model.transform T) tint
          ⟨hg.1, hg.2.1⟩] at hdc
      simp only [List.mem_flatten, List.mem_map] at hdc
      obtain ⟨l, ⟨nidr, _, rfl⟩, hdl⟩ := hdc
      exact DrawGLTFNode_trace_color fuel
        { model with transform := MatrixMultiply model.transform T }
        model.materials nidr (MatrixMultiply model.transform T) tint hwf hm dc hdl
    · rw [DrawGLTFModelWith_flat_trace fuel model T tint hg] at hdc
      simp only [List.mem_map] at hdc
      obtain ⟨i, _, rfl⟩ := hdc
      have hmi : model.meshMaterial.getD (Int.ofNat i).toNat 0
          < model.materials.length := by
        rcases getD_mem_or_default model.meshMaterial (Int.ofNat i).toNat 0 with
          hmem | hdef
        · exact hwf _ hmem
        · rw [hdef]; exact hm
      rw [drawMeshStep_meshIndex]
      exact drawMeshStep_color model model.materials (Int.ofNat i)
        (MatrixMultiply model.transform T) tint hmi

/-- C5 witness: drawing leaf node 1 of `Wmodel` emits exactly the draw
call `dcW`, whose material diffuse color is the tint composition; and the
spec's example, base color (255,0,0,255) with tint (128,128,128,255)
composing to (128,0,0,255). -/
theorem C5_witness :
    (∀ k ∈ Wmodel.meshMaterial, k < Wmodel.materials.length)
    ∧ 0 < Wmodel.materials.length
    ∧ dcW ∈ (DrawGLTFNode 1 Wmodel Wmodel.materials 1 MatrixIdentity white).2
    ∧ dcW.material.albedo.color
        = specTintColor
            ((Wmodel.materials.getD (Wmodel.meshMaterial.getD dcW.meshIndex.toNat 0)
              Material.zero).albedo.color)
            white
    ∧ specTintColor ⟨255, 0, 0, 255⟩ ⟨128, 128, 128, 255⟩ = ⟨128, 0, 0, 255⟩ := by
  have hmem : dcW ∈ (DrawGLTFNode 1 Wmodel Wmodel.materials 1 MatrixIdentity white).2 := by
    rw [DrawGLTFNode_succ_leaf 0 Wmodel Wmodel.materials 1 MatrixIdentity white
      (by decide) (by decide) (by decide)]
    exact List.mem_singleton.mpr rfl
  refine ⟨by decide, by decide, hmem, ?_, ?_⟩
  · exact C5_tint_composition.1 1 Wmodel Wmodel.materials 1 MatrixIdentity white
      (by decide) (by decide) dcW hmem
  · show Color.mk _ _ _ _ = _
    simp only [specTintColor, toUChar]
    norm_num
    exact ⟨by decide, by decide⟩

/-- C2 counterexample: on the container `d2` (one source mesh with one
triangle and one line primitive) the loaded meshCount is 2, the total
primitive count, while the number of triangle primitives is 1 — so
meshCount does not equal the number of triangle primitives as claimed. -/
theorem C2_counterexample :
    (LoadGLTFModelFile (some d2)).1.meshCount = 2
    ∧ (survivingPrims d2).length = 1
    ∧ (LoadGLTFModelFile (some d2)).1.meshCount ≠ (survivingPrims d2).length := by
  exact ⟨by decide, by decide, by decide⟩

/-- C2 (amended): non-triangle primitives are skipped without error and
each surviving (triangle) primitive becomes exactly one output mesh, at
consecutive output indices from 0; but meshCount equals the TOTAL number
of primitives across all source meshes (the slots of skipped primitives
remain zero-initialized meshes at the tail); each source mesh's surviving
primitives occupy the contiguous recorded range [start, end), with start
the number of triangle primitives of earlier source meshes and
end = start + its own triangle-primitive count. -/
theorem C2_amended_mesh_import :
    (∀ d : CData, (LoadGLTFModelFile (some d)).1.meshCount = primitivesCount d)
    ∧ (∀ d : CData, (LoadGLTFModelFile (some d)).1.meshes
        = (survivingPrims d).map (fun p => (loadPrimitiveMesh p).1)
          ++ List.replicate (primitivesCount d - (survivingPrims d).length) Mesh.zero)
    ∧ (∀ (d : CData) (i : Nat), i < d.meshes.length →
        (meshRanges d).getD i (0, 0)
          = (triBefore d.meshes i,
             triBefore d.meshes i + triCount (d.meshes.getD i (CMesh.mk [])))) := by
  refine ⟨fun d => rfl, fun d => LoadGLTFModelFile_meshes d, fun d i hi => ?_⟩
  rw [meshRanges_eq, rangesFrom_getD d.meshes 0 i hi]
  simp

/-- C2 witness: the amended statement instantiated at the concrete
container `d2`: meshCount is the total primitive count and the single
source mesh records range (0, 1). -/
theorem C2_witness :
    (LoadGLTFModelFile (some d2)).1.meshCount = primitivesCount d2
    ∧ (meshRanges d2).getD 0 (0, 0) = (0, 1) :=
  ⟨C2_amended_mesh_import.1 d2,
   (C2_amended_mesh_import.2.2 d2 0 (by decide)).trans (by decide)⟩

/-- C3: after a successful parse, every mesh-material entry (including
the zero-filled entries of skipped primitives) is a valid index below
materialCount; a surviving primitive with no material pointer (or one
matching no source material) maps to index 0, the default material, and a
primitive pointing at source material m < materialCount - 1 maps to
m + 1. -/
theorem C3_material_index_invariant :
    (∀ (d : CData) (i : Nat),
      (LoadGLTFModelFile (some d)).1.meshMaterial.getD i 0
        < (LoadGLTFModelFile (some d)).1.materialCount)
    ∧ (∀ (d : CData) (k : Nat), k < (survivingPrims d).length →
        ((survivingPrims d).getD k CPrimitive.zero).material = none →
        (LoadGLTFModelFile (some d)).1.meshMaterial.getD k 0 = 0)
    ∧ (∀ (d : CData) (k : Nat) (m : Nat), k < (survivingPrims d).length →
        ((survivingPrims d).getD k CPrimitive.zero).material = some m →
        ((m < d.materials.length →
          (LoadGLTFModelFile (some d)).1.meshMaterial.getD k 0 = m + 1)
        ∧ (d.materials.length ≤ m →
          (LoadGLTFModelFile (some d)).1.meshMaterial.getD k 0 = 0))) := by
  refine ⟨fun d i => meshMaterial_getD_lt d i,
    fun d k hk hnone => ?_,
    fun d k m hk hsome => ⟨fun hm => ?_, fun hm => ?_⟩⟩
  · rw [meshMaterial_getD_of_lt d k hk, hnone]
    rfl
  · rw [meshMaterial_getD_of_lt d k hk, hsome]
    simp [resolveMaterialIndex, hm]
  · rw [meshMaterial_getD_of_lt d k hk, hsome]
    simp [resolveMaterialIndex, Nat.not_lt.mpr hm]

/-- C3 witness: on the container `d3` (two triangle primitives, the first
pointing at source material 0, the second with no material) the first
output mesh gets material index 1, the second index 0, both below
materialCount. -/
theorem C3_witness :
    (LoadGLTFModelFile (some d3)).1.meshMaterial.getD 0 0
      < (LoadGLTFModelFile (some d3)).1.materialCount
    ∧ (LoadGLTFModelFile (some d3)).1.meshMaterial.getD 0 0 = 0 + 1
    ∧ (LoadGLTFModelFile (some d3)).1.meshMaterial.getD 1 0 = 0 :=
  ⟨C3_material_index_invariant.1 d3 0,
   (C3_material_index_invariant.2.2 d3 0 0 (by decide) (by decide)).1 (by decide),
   C3_material_index_invariant.2.1 d3 1 (by decide) (by decide)⟩

/-- C7 counterexample: the container `d7` has zero valid (triangle)
primitives, yet LoadGLTFModel returns meshCount = 2 (the total primitive
count), not the claimed single placeholder mesh: the fallback tests
meshCount == 0, which counts skipped primitives too. -/
theorem C7_counterexample :
    (survivingPrims d7).length = 0
    ∧ (LoadGLTFModel true (some d7)).1.meshCount = 2
    ∧ (LoadGLTFModel true (some d7)).1.meshCount ≠ 1 := by
  exact ⟨by decide, by decide, by decide⟩

/-- C7 (amended): LoadGLTFModel never returns zero meshes; and whenever
the load produced zero meshes — a container with zero primitives in
total, or a total parse failure — the result has meshCount = 1 holding
the synthesized placeholder (the generated unit cube when mesh generation
is compiled in, otherwise an empty mesh) and the corresponding warning is
reported. -/
theorem C7_amended_fallback :
    (∀ (sg : Bool) (input : Option CData), 1 ≤ (LoadGLTFModel sg input).1.meshCount)
    ∧ (∀ (sg : Bool) (input : Option CData),
        (input = none ∨ ∃ d, input = some d ∧ primitivesCount d = 0) →
        (LoadGLTFModel sg input).1.meshCount = 1
        ∧ (LoadGLTFModel sg input).1.meshes = [if sg then GenMeshCube else Mesh.zero]
        ∧ (if sg then Warning.meshLoadFailedDefaultCube else Warning.meshLoadFailed)
            ∈ (LoadGLTFModel sg input).2) := by
  have hzero : ∀ (sg : Bool) (input : Option CData),
      (input = none ∨ ∃ d, input = some d ∧ primitivesCount d = 0) →
      (LoadGLTFModelFile input).1.meshCount = 0 := by
    intro sg input h
    rcases h with rfl | ⟨d, rfl, hd⟩
    · rfl
    · exact hd
  constructor
  · intro sg input
    by_cases h : (LoadGLTFModelFile input).1.meshCount = 0
    · rw [(LoadGLTFModel_zero_meshes sg input h).1]
    · rw [LoadGLTFModel_meshCount_of_pos sg input h]
      omega
  · intro sg input h
    exact LoadGLTFModel_zero_meshes sg input (hzero sg input h)

/-- C7 witness: the amended fallback instantiated at a parse failure with
mesh generation compiled in: one placeholder cube mesh and the warning. -/
theorem C7_witness :
    (1 ≤ (LoadGLTFModel true none).1.meshCount)
    ∧ (LoadGLTFModel true none).1.meshCount = 1
    ∧ (LoadGLTFModel true none).1.meshes = [if true then GenMeshCube else Mesh.zero]
    ∧ (if true then Warning.meshLoadFailedDefaultCube else Warning.meshLoadFailed)
        ∈ (LoadGLTFModel true none).2 :=
  ⟨C7_amended_fallback.1 true none,
   (C7_amended_fallback.2 true none (Or.inl rfl)).1,
   (C7_amended_fallback.2 true none (Or.inl rfl)).2.1,
   (C7_amended_fallback.2 true none (Or.inl rfl)).2.2⟩

/-- C8: for a material in the metallic-roughness workflow, the base-color
factor is always written to the albedo map color (each channel scaled by
255 and truncated); the roughness and metalness scalar factors are
written only when a metallic-roughness texture is present in the source;
when it is absent the output is independent of those scalar factors (they
are not read at all). -/
theorem C8_metallic_roughness_gating (src : CMaterial)
    (h : src.hasPbrMetallicRoughness = true) :
    (loadMaterial src).albedo.color
      = { r := toUChar (src.baseColorFactor0 * 255)
          g := toUChar (src.baseColorFactor1 * 255)
          b := toUChar (src.baseColorFactor2 * 255)
          a := toUChar (src.baseColorFactor3 * 255) }
    ∧ (src.metallicRoughnessTexture = true →
        (loadMaterial src).roughness.value = src.roughnessFactor
        ∧ (loadMaterial src).metalness.value = src.metallicFactor)
    ∧ (src.metallicRoughnessTexture = false →
        ∀ (rf mf : ℚ),
          loadMaterial { src with roughnessFactor := rf, metallicFactor := mf }
            = loadMaterial src) := by
  refine ⟨?_, fun ht => ?_, fun hf rf mf => ?_⟩
  · by_cases h2 : src.metallicRoughnessTexture <;>
      by_cases h3 : src.emissiveTexture <;>
        simp [loadMaterial, h, h2, h3]
  · by_cases h3 : src.emissiveTexture <;> simp [loadMaterial, h, ht, h3]
  · by_cases h3 : src.emissiveTexture <;> simp [loadMaterial, h, hf, h3]

/-- C8 witness: on a concrete material with a metallic-roughness texture
the scalar factors are written; on one without the texture the output
does not change when the scalar factors change; and the base-color factor
is applied in both cases. -/
theorem C8_witness :
    (loadMaterial cmatW2).roughness.value = cmatW2.roughnessFactor
    ∧ (loadMaterial cmatW2).metalness.value = cmatW2.metallicFactor
    ∧ loadMaterial { cmatW with roughnessFactor := 5, metallicFactor := 7 }
        = loadMaterial cmatW
    ∧ (loadMaterial cmatW).albedo.color
        = { r := toUChar (cmatW.baseColorFactor0 * 255)
            g := toUChar (cmatW.baseColorFactor1 * 255)
            b := toUChar (cmatW.baseColorFactor2 * 255)
            a := toUChar (cmatW.baseColorFactor3 * 255) } :=
  ⟨((C8_metallic_roughness_gating cmatW2 rfl).2.1 rfl).1,
   ((C8_metallic_roughness_gating cmatW2 rfl).2.1 rfl).2,
   (C8_metallic_roughness_gating cmatW rfl).2.2 rfl 5 7,
   (C8_metallic_roughness_gating cmatW rfl).1⟩

/-- C9 counterexample: a source node with no rotation gets the
memset-zero quaternion (0, 0, 0, 0) as its stored TRS rotation, which is
not the identity quaternion (0, 0, 0, 1) — so the rotation field does not
default to the identity rotation as claimed. -/
theorem C9_counterexample :
    (loadNode [] cnode0).transform.rotation = ⟨0, 0, 0, 0⟩
    ∧ (loadNode [] cnode0).transform.rotation ≠ QuaternionIdentity := by
  refine ⟨rfl, fun hEq => ?_⟩
  have hw : (0 : ℚ) = 1 := congrArg Quaternion.w hEq
  norm_num at hw

/-- C9 (amended): the TRS fields default to zero translation, the ZERO
quaternion (0, 0, 0, 0) — not the identity quaternion, though the math
library maps it to the identity rotation matrix — and unit scale; and the
stored composed local matrix always equals
scale x rotation x translation (scale applied first, via MatrixMultiply)
of the stored TRS values. -/
theorem C9_amended_trs_defaults (ranges : List (Nat × Nat)) (n : CNode) :
    (n.translation = none → (loadNode ranges n).transform.translation = ⟨0, 0, 0⟩)
    ∧ (n.rotation = none → (loadNode ranges n).transform.rotation = ⟨0, 0, 0, 0⟩)
    ∧ (n.scale = none → (loadNode ranges n).transform.scale = ⟨1, 1, 1⟩)
    ∧ (loadNode ranges n).transformMatrix
        = MatrixMultiply
            (MatrixMultiply
              (MatrixScale (loadNode ranges n).transform.scale.x
                (loadNode ranges n).transform.scale.y
                (loadNode ranges n).transform.scale.z)
              (QuaternionToMatrix (loadNode ranges n).transform.rotation))
            (MatrixTranslate (loadNode ranges n).transform.translation.x
              (loadNode ranges n).transform.translation.y
              (loadNode ranges n).transform.translation.z) := by
  refine ⟨fun ht => ?_, fun hr => ?_, fun hs => ?_, ?_⟩
  · simp [loadNode, ht]
  · simp [loadNode, hr]
  · simp [loadNode, hs]
  · cases ht : n.translation <;> cases hr : n.rotation <;> cases hs : n.scale <;>
      simp [loadNode, ht, hr, hs, MatrixScale_unit, MatrixTranslate_zeroes,
        QuaternionToMatrix_zeroQuat]

/-- C9 witness: the amended defaults instantiated at a node with every
TRS field absent: zero translation, zero quaternion, unit scale, and the
composed matrix built from exactly those stored values. -/
theorem C9_witness :
    (loadNode [] cnode0).transform.translation = ⟨0, 0, 0⟩
    ∧ (loadNode [] cnode0).transform.rotation = ⟨0, 0, 0, 0⟩
    ∧ (loadNode [] cnode0).transform.scale = ⟨1, 1, 1⟩
    ∧ (loadNode [] cnode0).transformMatrix
        = MatrixMultiply
            (MatrixMultiply
              (MatrixScale (loadNode [] cnode0).transform.scale.x
                (loadNode [] cnode0).transform.scale.y
                (loadNode [] cnode0).transform.scale.z)
              (QuaternionToMatrix (loadNode [] cnode0).transform.rotation))
            (MatrixTranslate (loadNode [] cnode0).transform.translation.x
              (loadNode [] cnode0).transform.translation.y
              (loadNode [] cnode0).transform.translation.z) :=
  ⟨(C9_amended_trs_defaults [] cnode0).1 rfl,
   (C9_amended_trs_defaults [] cnode0).2.1 rfl,
   (C9_amended_trs_defaults [] cnode0).2.2.1 rfl,
   (C9_amended_trs_defaults [] cnode0).2.2.2⟩

end RGltf
